import Mathlib

/-!
Verification of the pdf2x conversion drivers.

The repository holds two near-duplicate Python scripts, `src/pdf2x.py`
(function `parse_pdf`) and `src/pdf_to_markdown.py` (function
`parse_pdf_to_markdown`).  Each validates a local input path, loads a
credential from the environment, performs one blocking call to an external
parsing service, and writes the first returned document's text to an output
file.

The embedding below is a shallow one.  Filesystem state, the environment
and the external service are abstracted into a `World` record of oracles;
the driver is a pure function from a `World` and its arguments to a result
(`Except PyExc Unit`, mirroring the Python exception that escapes, if any)
paired with a trace of effect events in the order the program performs
them.  `pathlib.PurePath.suffix` / `with_suffix` semantics are reproduced
exactly; `Path.resolve` is abstracted as an oracle since it depends on the
process working directory and symlinks.  `load_dotenv` plus `os.getenv` is
abstracted into the single oracle field `apiKeyEnv` (the value the merged
environment yields for `LLAMA_CLOUD_API_KEY`).  `mkdir(parents=True,
exist_ok=True)` and `open(...,'w')` are modelled as always succeeding;
their occurrence and order is recorded in the trace.
-/

namespace Pdf2x

/-- One document returned by the external parsing service
(`parser.load_data` returns a list of objects with a `.text` field). -/
structure Document where
  text : String
deriving DecidableEq, Repr

/-- A resolved filesystem path, as produced by `Path(...).resolve()`:
a parent-directory string and a final component (`Path.name`).
`Path.parent` is the `dir` field; `Path.suffix` and `with_suffix` act on
`name` only, exactly as in `pathlib`. -/
structure FsPath where
  dir : String
  name : String
deriving DecidableEq, Repr

/-- Rendering of a resolved path as a string (`str(path)`). -/
def FsPath.str (p : FsPath) : String :=
  p.dir ++ "/" ++ p.name

/-- Index of the last '.' in a list of characters, if any
(CPython `name.rfind('.')` restricted to the found case). -/
def lastDotIdx (cs : List Char) : Option Nat :=
  ((List.range cs.length).filter (fun i => cs.getD i ' ' == '.')).getLast?

/-- CPython `pathlib.PurePath.suffix` on a final component: the substring from the
last dot, provided that dot is neither the first nor the last character;
otherwise the empty string.  (CPython: `i = name.rfind('.');
return name[i:] if 0 < i < len(name) - 1 else ''`.) -/
def pySuffix (nm : String) : String :=
  let cs := nm.toList
  match lastDotIdx cs with
  | some i => if 0 < i ∧ i + 1 < cs.length then String.mk (cs.drop i) else ""
  | none => ""

/-- CPython `pathlib.PurePath.with_suffix` on a final component: strip the old
suffix if there is one, then append the new suffix.  (CPython:
`name[:-len(old)] + suffix` when the old suffix is non-empty, else
`name + suffix`.) -/
def pyWithSuffixName (nm newSuffix : String) : String :=
  let old := pySuffix nm
  if old = "" then nm ++ newSuffix
  else String.mk (nm.toList.take (nm.toList.length - old.toList.length)) ++ newSuffix

/-- Python `path.with_suffix(s)`: the parent directory is unchanged, the final
component gets its suffix replaced. -/
def FsPath.withSuffix (p : FsPath) (s : String) : FsPath :=
  ⟨p.dir, pyWithSuffixName p.name s⟩

/-- Python `str.lower` as used by the scripts, character-wise over the string.
(`Char.toLower` maps the ASCII range exactly as Python does; every string
the scripts compare a lowering against is ASCII.) -/
def pyLower (s : String) : String :=
  String.mk (s.toList.map Char.toLower)

/-- Python `str.upper`, character-wise (used only in the success log line). -/
def pyUpper (s : String) : String :=
  String.mk (s.toList.map Char.toUpper)

/-- Python truthiness of an optional string (`if not api_key`,
`if output_path`): `None` and the empty string are falsy. -/
def pyTruthy : Option String → Bool
  | none => false
  | some s => s != ""

/-- Python `str.startswith`, character-wise over the two strings. -/
def pyStartsWith (s pre : String) : Bool :=
  pre.toList.isPrefixOf s.toList

/-- The Python exception that escapes a failed run.  The constructors are
the Python exception types the two scripts can raise themselves
(`ValueError`, `FileNotFoundError`, `PermissionError`), plus the case of an
exception raised inside the external client call, which the scripts log
and re-raise unchanged. -/
inductive PyExc where
  | valueError (msg : String)
  | fileNotFoundError (msg : String)
  | permissionError (msg : String)
  | externalError (msg : String)
deriving DecidableEq, Repr

/-- The Python exception type (class) of an escaping exception, forgetting
the message.  Two failures are "the same kind" at the language level
exactly when this agrees. -/
inductive PyKind where
  | valueError
  | fileNotFoundError
  | permissionError
  | externalError
deriving DecidableEq, Repr

def PyExc.kind : PyExc → PyKind
  | .valueError _ => .valueError
  | .fileNotFoundError _ => .fileNotFoundError
  | .permissionError _ => .permissionError
  | .externalError _ => .externalError

/-- Python `str(e)` of an escaping exception, as used in the log lines. -/
def PyExc.msg : PyExc → String
  | .valueError m => m
  | .fileNotFoundError m => m
  | .permissionError m => m
  | .externalError m => m

/-- One observable step of a run, recorded in program order.  The check
events are emitted when the corresponding validation is evaluated; the
remaining events record the client construction, the client call, the
directory creation, the output-directory permission probe, the file write
(`open(path, 'w')` followed by writing the full contents, i.e. a complete
overwrite of whatever was at the path), and the log lines.  The type has
no constructor for removing a file or directory: neither script ever
deletes anything. -/
inductive Event where
  | checkApiKey
  | checkFormat
  | checkSuffix
  | checkExists
  | checkIsFile
  | checkReadable
  | logInfo (msg : String)
  | logError (msg : String)
  | constructClient (resultType : String)
  | callClient (path : FsPath)
  | mkdirParents (dir : String)
  | checkWritePerm (dir : String)
  | writeFile (path : FsPath) (contents : String)
deriving DecidableEq, Repr

/-- The world a run executes in: every oracle the scripts consult.
`apiKeyEnv` is the value `os.getenv('LLAMA_CLOUD_API_KEY')` yields after
`load_dotenv` has merged the script-local `.env` file into the process
environment.  `resolve` is `Path(s).resolve()`.  `externalCall p t` is the
outcome of `LlamaParse(result_type=t, ...).load_data(str(p))`: either the
returned document list or the message of the exception it raised. -/
structure World where
  apiKeyEnv : Option String
  fsExists : FsPath → Bool
  fsIsFile : FsPath → Bool
  fsReadable : FsPath → Bool
  dirWritable : String → Bool
  resolve : String → FsPath
  externalCall : FsPath → String → Except String (List Document)

/-- The six validation check events in the order the source performs them
(src/pdf2x.py lines 30-52). -/
def sixChecks : List Event :=
  [Event.checkApiKey, Event.checkFormat, Event.checkSuffix,
   Event.checkExists, Event.checkIsFile, Event.checkReadable]

/-- Is an event one of the six validation checks? -/
def isCheckEvent : Event → Bool
  | Event.checkApiKey => true
  | Event.checkFormat => true
  | Event.checkSuffix => true
  | Event.checkExists => true
  | Event.checkIsFile => true
  | Event.checkReadable => true
  | _ => false

/-- Is an event a construction or invocation of the external client? -/
def isClientEvent : Event → Bool
  | Event.constructClient _ => true
  | Event.callClient _ => true
  | _ => false

/-- The default-output-extension table of src/pdf2x.py lines 73-77.  The
source dict is only ever indexed with an already-validated format, so the
catch-all case is unreachable in any run that reaches the lookup. -/
def extensions : String → String
  | "markdown" => ".md"
  | "text" => ".txt"
  | "json" => ".json"
  | _ => ""

/-- The output path computation of src/pdf2x.py lines 79-83 (and the
identical line 67 of src/pdf_to_markdown.py with extension fixed to
`.md`): an explicit truthy output path is resolved and used as given;
otherwise the resolved input path with its suffix replaced by the
format-mapped extension.  `rp` is the already-resolved input path and
`ext` the extension for the (already lower-cased) format. -/
def outPathOf (w : World) (rp : FsPath) (output_path : Option String) (ext : String) : FsPath :=
  match output_path with
  | some s => if s = "" then rp.withSuffix ext else w.resolve s
  | none => rp.withSuffix ext

/-- Shallow embedding of `parse_pdf` (src/pdf2x.py lines 10-100).  Returns
the escaping exception (if any) and the trace of effects in program
order.  Validation failures before the `try` block are not logged inside
the function; failures inside the `try` block are logged with the
"Failed to convert PDF: " prefix and re-raised, exactly as in the source.
-/
def parse_pdf (w : World) (pdf_path : String) (output_path : Option String)
    (format : String) : Except PyExc Unit × List Event :=
  if pyTruthy w.apiKeyEnv = false then
    (Except.error (PyExc.valueError "LLAMA_CLOUD_API_KEY environment variable is not set"),
     [Event.checkApiKey])
  else
    let fmt := pyLower format
    if fmt ∉ (["markdown", "text", "json"] : List String) then
      (Except.error (PyExc.valueError ("Unsupported format: " ++ fmt ++
         ". Use \x27markdown\x27, \x27text\x27, or \x27json\x27")),
       [Event.checkApiKey, Event.checkFormat])
    else
      let rp := w.resolve pdf_path
      if pyLower (pySuffix rp.name) ≠ ".pdf" then
        (Except.error (PyExc.valueError ("Input file must be a PDF: " ++ rp.str)),
         [Event.checkApiKey, Event.checkFormat, Event.checkSuffix])
      else if w.fsExists rp = false then
        (Except.error (PyExc.fileNotFoundError ("PDF file not found: " ++ rp.str)),
         [Event.checkApiKey, Event.checkFormat, Event.checkSuffix, Event.checkExists])
      else if w.fsIsFile rp = false then
        (Except.error (PyExc.valueError ("Path exists but is not a file: " ++ rp.str)),
         [Event.checkApiKey, Event.checkFormat, Event.checkSuffix, Event.checkExists,
          Event.checkIsFile])
      else if w.fsReadable rp = false then
        (Except.error (PyExc.permissionError ("No read permission for file: " ++ rp.str)),
         sixChecks)
      else
        let pre := sixChecks ++
          [Event.logInfo ("Processing PDF file: " ++ rp.str),
           Event.constructClient fmt, Event.callClient rp]
        match w.externalCall rp fmt with
        | Except.error m =>
            (Except.error (PyExc.externalError m),
             pre ++ [Event.logError ("Failed to convert PDF: " ++ m)])
        | Except.ok [] =>
            (Except.error (PyExc.valueError "No content was extracted from the PDF"),
             pre ++ [Event.logError
               "Failed to convert PDF: No content was extracted from the PDF"])
        | Except.ok (d :: _) =>
            let op := outPathOf w rp output_path (extensions fmt)
            let tr := pre ++ [Event.mkdirParents op.dir, Event.checkWritePerm op.dir]
            if w.dirWritable op.dir = false then
              (Except.error (PyExc.permissionError
                 ("No write permission for directory: " ++ op.dir)),
               tr ++ [Event.logError
                 ("Failed to convert PDF: No write permission for directory: " ++ op.dir)])
            else
              (Except.ok (),
               tr ++ [Event.writeFile op d.text,
                 Event.logInfo ("Successfully converted PDF to " ++ pyUpper fmt ++
                   ": " ++ op.str)])

/-- Shallow embedding of `parse_pdf_to_markdown` (src/pdf_to_markdown.py
lines 10-84): identical to `parse_pdf` except that there is no format
argument and no format validation, the client is constructed with result
type `"markdown"`, the default output extension is `.md`, and the success
log line says "Markdown" instead of the upper-cased format. -/
def parse_pdf_to_markdown (w : World) (pdf_path : String)
    (output_path : Option String) : Except PyExc Unit × List Event :=
  if pyTruthy w.apiKeyEnv = false then
    (Except.error (PyExc.valueError "LLAMA_CLOUD_API_KEY environment variable is not set"),
     [Event.checkApiKey])
  else
    let rp := w.resolve pdf_path
    if pyLower (pySuffix rp.name) ≠ ".pdf" then
      (Except.error (PyExc.valueError ("Input file must be a PDF: " ++ rp.str)),
       [Event.checkApiKey, Event.checkSuffix])
    else if w.fsExists rp = false then
      (Except.error (PyExc.fileNotFoundError ("PDF file not found: " ++ rp.str)),
       [Event.checkApiKey, Event.checkSuffix, Event.checkExists])
    else if w.fsIsFile rp = false then
      (Except.error (PyExc.valueError ("Path exists but is not a file: " ++ rp.str)),
       [Event.checkApiKey, Event.checkSuffix, Event.checkExists, Event.checkIsFile])
    else if w.fsReadable rp = false then
      (Except.error (PyExc.permissionError ("No read permission for file: " ++ rp.str)),
       [Event.checkApiKey, Event.checkSuffix, Event.checkExists, Event.checkIsFile,
        Event.checkReadable])
    else
      let pre := [Event.checkApiKey, Event.checkSuffix, Event.checkExists,
        Event.checkIsFile, Event.checkReadable,
        Event.logInfo ("Processing PDF file: " ++ rp.str),
        Event.constructClient "markdown", Event.callClient rp]
      match w.externalCall rp "markdown" with
      | Except.error m =>
          (Except.error (PyExc.externalError m),
           pre ++ [Event.logError ("Failed to convert PDF: " ++ m)])
      | Except.ok [] =>
          (Except.error (PyExc.valueError "No content was extracted from the PDF"),
           pre ++ [Event.logError
             "Failed to convert PDF: No content was extracted from the PDF"])
      | Except.ok (d :: _) =>
          let op := outPathOf w rp output_path ".md"
          let tr := pre ++ [Event.mkdirParents op.dir, Event.checkWritePerm op.dir]
          if w.dirWritable op.dir = false then
            (Except.error (PyExc.permissionError
               ("No write permission for directory: " ++ op.dir)),
             tr ++ [Event.logError
               ("Failed to convert PDF: No write permission for directory: " ++ op.dir)])
          else
            (Except.ok (),
             tr ++ [Event.writeFile op d.text,
               Event.logInfo ("Successfully converted PDF to Markdown: " ++ op.str)])

/-- The writes a trace performs, in order: pairs of path and full
contents. -/
def writesOf (tr : List Event) : List (FsPath × String) :=
  tr.filterMap fun e =>
    match e with
    | Event.writeFile p c => some (p, c)
    | _ => none

/-- Replay the writes of a trace over an initial file-contents map
(keyed by rendered path).  `open(path, 'w')` truncates, so each write
replaces the full contents at its path. -/
def applyEvents (fs : String → Option String) : List Event → (String → Option String)
  | [] => fs
  | Event.writeFile p c :: rest =>
      applyEvents (fun q => if q = p.str then some c else fs q) rest
  | _ :: rest => applyEvents fs rest

/-- The namespace an `argparse.ArgumentParser` of src/pdf2x.py lines
104-108 produces: one required positional, an optional output path, an
optional format defaulting to "markdown". -/
structure Pdf2xArgs where
  pdf_path : String
  output : Option String
  format : String
deriving DecidableEq, Repr

/-- The format choices declared on the `--format` argument
(src/pdf2x.py line 107). -/
def formatChoices : List String := ["markdown", "text", "json"]

/-- Model of `argparse` command-line parsing for the declarations of
src/pdf2x.py lines 104-108.  A parse failure (missing required
positional, unknown option, extra positional, missing option value, or a
`--format` value outside its declared choices) makes `argparse` print a
message and call `sys.exit(2)` -- always with status 2, so the failure
case carries no further data here and the CLI model below exits with 2.
The model covers the space-separated and `--opt=value` spellings of the
two options; `argparse` prefix abbreviations and attached short-option
values (`-ovalue`) are not modelled. -/
def parseArgsPdf2xGo : List String → Option String → Option String → Option String →
    Except Unit Pdf2xArgs
  | [], pos, out, fmt =>
      match pos with
      | none => Except.error ()
      | some p => Except.ok ⟨p, out, fmt.getD "markdown"⟩
  | a :: rest, pos, out, fmt =>
      if a = "--output" ∨ a = "-o" then
        match rest with
        | [] => Except.error ()
        | v :: rest2 => parseArgsPdf2xGo rest2 pos (some v) fmt
      else if pyStartsWith a "--output=" then
        parseArgsPdf2xGo rest pos (some (a.drop 9)) fmt
      else if a = "--format" ∨ a = "-f" then
        match rest with
        | [] => Except.error ()
        | v :: rest2 =>
            if v ∈ formatChoices then parseArgsPdf2xGo rest2 pos out (some v)
            else Except.error ()
      else if pyStartsWith a "--format=" then
        if a.drop 9 ∈ formatChoices then parseArgsPdf2xGo rest pos out (some (a.drop 9))
        else Except.error ()
      else if pyStartsWith a "-" ∧ a ≠ "-" then
        Except.error ()
      else
        match pos with
        | none => parseArgsPdf2xGo rest (some a) out fmt
        | some _ => Except.error ()

/-- The call `parser.parse_args()` of src/pdf2x.py. -/
def parseArgsPdf2x (argv : List String) : Except Unit Pdf2xArgs :=
  parseArgsPdf2xGo argv none none none

/-- Model of `argparse` parsing for src/pdf_to_markdown.py lines 88-90:
as above but with no `--format` option. -/
def parseArgsMdGo : List String → Option String → Option String →
    Except Unit (String × Option String)
  | [], pos, out =>
      match pos with
      | none => Except.error ()
      | some p => Except.ok (p, out)
  | a :: rest, pos, out =>
      if a = "--output" ∨ a = "-o" then
        match rest with
        | [] => Except.error ()
        | v :: rest2 => parseArgsMdGo rest2 pos (some v)
      else if pyStartsWith a "--output=" then
        parseArgsMdGo rest pos (some (a.drop 9))
      else if pyStartsWith a "-" ∧ a ≠ "-" then
        Except.error ()
      else
        match pos with
        | none => parseArgsMdGo rest (some a) out
        | some _ => Except.error ()

/-- The call `parser.parse_args()` of src/pdf_to_markdown.py. -/
def parseArgsMd (argv : List String) : Except Unit (String × Option String) :=
  parseArgsMdGo argv none none

/-- The `__main__` block of src/pdf2x.py (lines 102-115): parse the
command line and run `parse_pdf`, all inside one `try`.  An `Exception`
is logged ("Conversion failed: ...") and turned into `sys.exit(1)`;
normal completion exits with status 0.  A parse failure raises
`SystemExit(2)` inside `parse_args`, which is not an `Exception`, so the
`except Exception` handler does not catch it: the process exits with
argparse's status 2 and nothing is logged.  Returns the exit status and
the trace. -/
def cliMainPdf2x (w : World) (argv : List String) : Nat × List Event :=
  match parseArgsPdf2x argv with
  | Except.error _ => (2, [])
  | Except.ok a =>
      match parse_pdf w a.pdf_path a.output a.format with
      | (Except.ok _, tr) => (0, tr)
      | (Except.error e, tr) =>
          (1, tr ++ [Event.logError ("Conversion failed: " ++ e.msg)])

/-- The `__main__` block of src/pdf_to_markdown.py (lines 86-97), with the
same structure as `cliMainPdf2x`. -/
def cliMainMd (w : World) (argv : List String) : Nat × List Event :=
  match parseArgsMd argv with
  | Except.error _ => (2, [])
  | Except.ok a =>
      match parse_pdf_to_markdown w a.1 a.2 with
      | (Except.ok _, tr) => (0, tr)
      | (Except.error e, tr) =>
          (1, tr ++ [Event.logError ("Conversion failed: " ++ e.msg)])

/-- Reduction of `parse_pdf` when the credential is absent or empty
(src/pdf2x.py lines 30-32). -/
lemma parse_pdf_key_missing (w : World) (p : String) (o : Option String) (f : String)
    (h1 : pyTruthy w.apiKeyEnv = false) :
    parse_pdf w p o f =
      (Except.error (PyExc.valueError "LLAMA_CLOUD_API_KEY environment variable is not set"),
       [Event.checkApiKey]) := by
  simp [parse_pdf, h1]

/-- Reduction of `parse_pdf` when the lower-cased format is unrecognized
(src/pdf2x.py lines 35-37). -/
lemma parse_pdf_bad_format (w : World) (p : String) (o : Option String) (f : String)
    (h1 : pyTruthy w.apiKeyEnv = true)
    (h2 : pyLower f ∉ (["markdown", "text", "json"] : List String)) :
    parse_pdf w p o f =
      (Except.error (PyExc.valueError ("Unsupported format: " ++ pyLower f ++
         ". Use \x27markdown\x27, \x27text\x27, or \x27json\x27")),
       [Event.checkApiKey, Event.checkFormat]) := by
  simp [parse_pdf, h1, h2]

/-- Reduction of `parse_pdf` when the resolved input name has no ".pdf" suffix
(src/pdf2x.py lines 40-42). -/
lemma parse_pdf_bad_suffix (w : World) (p : String) (o : Option String) (f : String)
    (h1 : pyTruthy w.apiKeyEnv = true)
    (h2 : pyLower f ∈ (["markdown", "text", "json"] : List String))
    (h3 : pyLower (pySuffix (w.resolve p).name) ≠ ".pdf") :
    parse_pdf w p o f =
      (Except.error (PyExc.valueError ("Input file must be a PDF: " ++ (w.resolve p).str)),
       [Event.checkApiKey, Event.checkFormat, Event.checkSuffix]) := by
  simp [parse_pdf, h1, h2, h3]

/-- Reduction of `parse_pdf` when the resolved input does not exist
(src/pdf2x.py lines 44-45). -/
lemma parse_pdf_not_exists (w : World) (p : String) (o : Option String) (f : String)
    (h1 : pyTruthy w.apiKeyEnv = true)
    (h2 : pyLower f ∈ (["markdown", "text", "json"] : List String))
    (h3 : pyLower (pySuffix (w.resolve p).name) = ".pdf")
    (h4 : w.fsExists (w.resolve p) = false) :
    parse_pdf w p o f =
      (Except.error (PyExc.fileNotFoundError ("PDF file not found: " ++ (w.resolve p).str)),
       [Event.checkApiKey, Event.checkFormat, Event.checkSuffix, Event.checkExists]) := by
  simp [parse_pdf, h1, h2, h3, h4]

/-- Reduction of `parse_pdf` when the resolved input exists but is not a regular file
(src/pdf2x.py lines 47-48). -/
lemma parse_pdf_not_file (w : World) (p : String) (o : Option String) (f : String)
    (h1 : pyTruthy w.apiKeyEnv = true)
    (h2 : pyLower f ∈ (["markdown", "text", "json"] : List String))
    (h3 : pyLower (pySuffix (w.resolve p).name) = ".pdf")
    (h4 : w.fsExists (w.resolve p) = true)
    (h5 : w.fsIsFile (w.resolve p) = false) :
    parse_pdf w p o f =
      (Except.error (PyExc.valueError ("Path exists but is not a file: " ++ (w.resolve p).str)),
       [Event.checkApiKey, Event.checkFormat, Event.checkSuffix, Event.checkExists,
        Event.checkIsFile]) := by
  simp [parse_pdf, h1, h2, h3, h4, h5]

/-- Reduction of `parse_pdf` when the resolved input is not readable
(src/pdf2x.py lines 51-52). -/
lemma parse_pdf_not_readable (w : World) (p : String) (o : Option String) (f : String)
    (h1 : pyTruthy w.apiKeyEnv = true)
    (h2 : pyLower f ∈ (["markdown", "text", "json"] : List String))
    (h3 : pyLower (pySuffix (w.resolve p).name) = ".pdf")
    (h4 : w.fsExists (w.resolve p) = true)
    (h5 : w.fsIsFile (w.resolve p) = true)
    (h6 : w.fsReadable (w.resolve p) = false) :
    parse_pdf w p o f =
      (Except.error (PyExc.permissionError ("No read permission for file: " ++ (w.resolve p).str)),
       sixChecks) := by
  simp [parse_pdf, h1, h2, h3, h4, h5, h6]

/-- Reduction of `parse_pdf` when all validations pass and the external call raises
(src/pdf2x.py lines 67, 98-100). -/
lemma parse_pdf_external_error (w : World) (p : String) (o : Option String) (f : String)
    (m : String)
    (h1 : pyTruthy w.apiKeyEnv = true)
    (h2 : pyLower f ∈ (["markdown", "text", "json"] : List String))
    (h3 : pyLower (pySuffix (w.resolve p).name) = ".pdf")
    (h4 : w.fsExists (w.resolve p) = true)
    (h5 : w.fsIsFile (w.resolve p) = true)
    (h6 : w.fsReadable (w.resolve p) = true)
    (h7 : w.externalCall (w.resolve p) (pyLower f) = Except.error m) :
    parse_pdf w p o f =
      (Except.error (PyExc.externalError m),
       sixChecks ++
         [Event.logInfo ("Processing PDF file: " ++ (w.resolve p).str),
          Event.constructClient (pyLower f), Event.callClient (w.resolve p),
          Event.logError ("Failed to convert PDF: " ++ m)]) := by
  simp [parse_pdf, h1, h2, h3, h4, h5, h6, h7, sixChecks]

/-- Reduction of `parse_pdf` when the external call returns an empty document list
(src/pdf2x.py lines 69-70). -/
lemma parse_pdf_empty_docs (w : World) (p : String) (o : Option String) (f : String)
    (h1 : pyTruthy w.apiKeyEnv = true)
    (h2 : pyLower f ∈ (["markdown", "text", "json"] : List String))
    (h3 : pyLower (pySuffix (w.resolve p).name) = ".pdf")
    (h4 : w.fsExists (w.resolve p) = true)
    (h5 : w.fsIsFile (w.resolve p) = true)
    (h6 : w.fsReadable (w.resolve p) = true)
    (h7 : w.externalCall (w.resolve p) (pyLower f) = Except.ok []) :
    parse_pdf w p o f =
      (Except.error (PyExc.valueError "No content was extracted from the PDF"),
       sixChecks ++
         [Event.logInfo ("Processing PDF file: " ++ (w.resolve p).str),
          Event.constructClient (pyLower f), Event.callClient (w.resolve p),
          Event.logError "Failed to convert PDF: No content was extracted from the PDF"]) := by
  simp [parse_pdf, h1, h2, h3, h4, h5, h6, h7, sixChecks]

/-- Reduction of `parse_pdf` when documents come back but the output directory is not
writable (src/pdf2x.py lines 89-90). -/
lemma parse_pdf_unwritable (w : World) (p : String) (o : Option String) (f : String)
    (d : Document) (ds : List Document)
    (h1 : pyTruthy w.apiKeyEnv = true)
    (h2 : pyLower f ∈ (["markdown", "text", "json"] : List String))
    (h3 : pyLower (pySuffix (w.resolve p).name) = ".pdf")
    (h4 : w.fsExists (w.resolve p) = true)
    (h5 : w.fsIsFile (w.resolve p) = true)
    (h6 : w.fsReadable (w.resolve p) = true)
    (h7 : w.externalCall (w.resolve p) (pyLower f) = Except.ok (d :: ds))
    (h8 : w.dirWritable (outPathOf w (w.resolve p) o (extensions (pyLower f))).dir = false) :
    parse_pdf w p o f =
      (Except.error (PyExc.permissionError ("No write permission for directory: " ++
         (outPathOf w (w.resolve p) o (extensions (pyLower f))).dir)),
       sixChecks ++
         [Event.logInfo ("Processing PDF file: " ++ (w.resolve p).str),
          Event.constructClient (pyLower f), Event.callClient (w.resolve p),
          Event.mkdirParents (outPathOf w (w.resolve p) o (extensions (pyLower f))).dir,
          Event.checkWritePerm (outPathOf w (w.resolve p) o (extensions (pyLower f))).dir,
          Event.logError ("Failed to convert PDF: No write permission for directory: " ++
            (outPathOf w (w.resolve p) o (extensions (pyLower f))).dir)]) := by
  simp [parse_pdf, h1, h2, h3, h4, h5, h6, h7, h8, sixChecks]

/-- Reduction of `parse_pdf` on a fully successful run (src/pdf2x.py lines 79-96). -/
lemma parse_pdf_success_eq (w : World) (p : String) (o : Option String) (f : String)
    (d : Document) (ds : List Document)
    (h1 : pyTruthy w.apiKeyEnv = true)
    (h2 : pyLower f ∈ (["markdown", "text", "json"] : List String))
    (h3 : pyLower (pySuffix (w.resolve p).name) = ".pdf")
    (h4 : w.fsExists (w.resolve p) = true)
    (h5 : w.fsIsFile (w.resolve p) = true)
    (h6 : w.fsReadable (w.resolve p) = true)
    (h7 : w.externalCall (w.resolve p) (pyLower f) = Except.ok (d :: ds))
    (h8 : w.dirWritable (outPathOf w (w.resolve p) o (extensions (pyLower f))).dir = true) :
    parse_pdf w p o f =
      (Except.ok (),
       sixChecks ++
         [Event.logInfo ("Processing PDF file: " ++ (w.resolve p).str),
          Event.constructClient (pyLower f), Event.callClient (w.resolve p),
          Event.mkdirParents (outPathOf w (w.resolve p) o (extensions (pyLower f))).dir,
          Event.checkWritePerm (outPathOf w (w.resolve p) o (extensions (pyLower f))).dir,
          Event.writeFile (outPathOf w (w.resolve p) o (extensions (pyLower f))) d.text,
          Event.logInfo ("Successfully converted PDF to " ++ pyUpper (pyLower f) ++ ": " ++
            (outPathOf w (w.resolve p) o (extensions (pyLower f))).str)]) := by
  simp [parse_pdf, h1, h2, h3, h4, h5, h6, h7, h8, sixChecks]

/-- A concrete world in which every validation passes: the credential is
set, every input resolves under "/work", exists, is a regular file and is
readable, every directory is writable, and the external service returns
two documents with texts "Hello" and "World". -/
def wAll : World :=
  { apiKeyEnv := some "k",
    fsExists := fun _ => true,
    fsIsFile := fun _ => true,
    fsReadable := fun _ => true,
    dirWritable := fun _ => true,
    resolve := fun s => FsPath.mk "/work" s,
    externalCall := fun _ _ => Except.ok [Document.mk "Hello", Document.mk "World"] }

/-- C2: on every run of `convert` the validation-check events form a
prefix of the six checks (credential, format, extension, existence,
regular-file, readability) in exactly that order; any event beyond the
checks -- in particular constructing or invoking the external client --
occurs only after all six checks have run (`rest ≠ [] → k = 6`); a run
that stops inside the checks fails; and with the credential present and a
recognized format, an input whose resolved name lacks a ".pdf" suffix
(case-insensitively) fails with the invalid-input `ValueError` right
after the third check, with no client construction, client call, or any
other event after it -- hence before any network call. -/
theorem validation_checks_ordered_and_fail_fast (w : World) (p : String)
    (o : Option String) (f : String) :
    (∃ k rest, (parse_pdf w p o f).2 = sixChecks.take k ++ rest ∧
      rest.all (fun e => !isCheckEvent e) = true ∧
      (rest ≠ [] → k = 6) ∧
      ((parse_pdf w p o f).1 = Except.ok () → k = 6)) ∧
    (pyTruthy w.apiKeyEnv = true →
      pyLower f ∈ (["markdown", "text", "json"] : List String) →
      pyLower (pySuffix (w.resolve p).name) ≠ ".pdf" →
      (parse_pdf w p o f).2 = [Event.checkApiKey, Event.checkFormat, Event.checkSuffix] ∧
      (parse_pdf w p o f).1 =
        Except.error (PyExc.valueError ("Input file must be a PDF: " ++ (w.resolve p).str))) := by
  constructor
  · by_cases h1 : pyTruthy w.apiKeyEnv = false
    · rw [parse_pdf_key_missing w p o f h1]
      exact ⟨1, [], by simp [sixChecks], rfl, by simp, by simp⟩
    · simp only [Bool.not_eq_false] at h1
      by_cases h2 : pyLower f ∈ (["markdown", "text", "json"] : List String)
      · by_cases h3 : pyLower (pySuffix (w.resolve p).name) = ".pdf"
        · by_cases h4 : w.fsExists (w.resolve p) = false
          · rw [parse_pdf_not_exists w p o f h1 h2 h3 h4]
            exact ⟨4, [], by simp [sixChecks], rfl, by simp, by simp⟩
          · simp only [Bool.not_eq_false] at h4
            by_cases h5 : w.fsIsFile (w.resolve p) = false
            · rw [parse_pdf_not_file w p o f h1 h2 h3 h4 h5]
              exact ⟨5, [], by simp [sixChecks], rfl, by simp, by simp⟩
            · simp only [Bool.not_eq_false] at h5
              by_cases h6 : w.fsReadable (w.resolve p) = false
              · rw [parse_pdf_not_readable w p o f h1 h2 h3 h4 h5 h6]
                exact ⟨6, [], rfl, rfl, by simp, by simp⟩
              · simp only [Bool.not_eq_false] at h6
                cases hc : w.externalCall (w.resolve p) (pyLower f) with
                | error m =>
                    rw [parse_pdf_external_error w p o f m h1 h2 h3 h4 h5 h6 hc]
                    exact ⟨6,
                      [Event.logInfo ("Processing PDF file: " ++ (w.resolve p).str),
                       Event.constructClient (pyLower f), Event.callClient (w.resolve p),
                       Event.logError ("Failed to convert PDF: " ++ m)],
                      rfl, rfl, fun _ => rfl, by simp⟩
                | ok docs =>
                    cases docs with
                    | nil =>
                        rw [parse_pdf_empty_docs w p o f h1 h2 h3 h4 h5 h6 hc]
                        exact ⟨6,
                          [Event.logInfo ("Processing PDF file: " ++ (w.resolve p).str),
                           Event.constructClient (pyLower f), Event.callClient (w.resolve p),
                           Event.logError
                             "Failed to convert PDF: No content was extracted from the PDF"],
                          rfl, rfl, fun _ => rfl, by simp⟩
                    | cons d ds =>
                        by_cases h8 : w.dirWritable
                            (outPathOf w (w.resolve p) o (extensions (pyLower f))).dir = false
                        · rw [parse_pdf_unwritable w p o f d ds h1 h2 h3 h4 h5 h6 hc h8]
                          exact ⟨6,
                            [Event.logInfo ("Processing PDF file: " ++ (w.resolve p).str),
                             Event.constructClient (pyLower f), Event.callClient (w.resolve p),
                             Event.mkdirParents
                               (outPathOf w (w.resolve p) o (extensions (pyLower f))).dir,
                             Event.checkWritePerm
                               (outPathOf w (w.resolve p) o (extensions (pyLower f))).dir,
                             Event.logError
                               ("Failed to convert PDF: No write permission for directory: " ++
                                 (outPathOf w (w.resolve p) o (extensions (pyLower f))).dir)],
                            rfl, rfl, fun _ => rfl, by simp⟩
                        · simp only [Bool.not_eq_false] at h8
                          rw [parse_pdf_success_eq w p o f d ds h1 h2 h3 h4 h5 h6 hc h8]
                          exact ⟨6,
                            [Event.logInfo ("Processing PDF file: " ++ (w.resolve p).str),
                             Event.constructClient (pyLower f), Event.callClient (w.resolve p),
                             Event.mkdirParents
                               (outPathOf w (w.resolve p) o (extensions (pyLower f))).dir,
                             Event.checkWritePerm
                               (outPathOf w (w.resolve p) o (extensions (pyLower f))).dir,
                             Event.writeFile
                               (outPathOf w (w.resolve p) o (extensions (pyLower f))) d.text,
                             Event.logInfo ("Successfully converted PDF to " ++
                               pyUpper (pyLower f) ++ ": " ++
                               (outPathOf w (w.resolve p) o (extensions (pyLower f))).str)],
                            rfl, rfl, fun _ => rfl, fun _ => rfl⟩
        · rw [parse_pdf_bad_suffix w p o f h1 h2 h3]
          exact ⟨3, [], by simp [sixChecks], rfl, by simp, by simp⟩
      · rw [parse_pdf_bad_format w p o f h1 h2]
        exact ⟨2, [], by simp [sixChecks], rfl, by simp, by simp⟩
  · intro h1 h2 h3
    rw [parse_pdf_bad_suffix w p o f h1 h2 h3]
    exact ⟨rfl, rfl⟩

/-- Witness for C2 at a concrete input: in the all-good world, the input
"b.txt" (wrong extension) fails right after the third check, before any
client event. -/
theorem validation_checks_ordered_and_fail_fast_witness :
    (parse_pdf wAll "b.txt" none "markdown").2 =
      [Event.checkApiKey, Event.checkFormat, Event.checkSuffix] ∧
    (parse_pdf wAll "b.txt" none "markdown").1 =
      Except.error (PyExc.valueError "Input file must be a PDF: /work/b.txt") :=
  (validation_checks_ordered_and_fail_fast wAll "b.txt" none "markdown").2
    rfl (by decide) (by decide)

/-- C5 (amended): whenever the credential is absent from the merged
environment (or present but empty, which `if not api_key` also treats as
missing), `convert` fails immediately with the `ValueError` carrying the
missing-credential message, whatever the other arguments are, and the
only event is the credential check.  The code does not give the
taxonomy's kinds distinct exception types: this very error is a
`ValueError`, the same type as the invalid-argument and empty-result
failures (see the counterexample theorem). -/
theorem missing_credential_fails_first (w : World) (p : String) (o : Option String)
    (f : String) (h : pyTruthy w.apiKeyEnv = false) :
    (parse_pdf w p o f).1 =
      Except.error (PyExc.valueError "LLAMA_CLOUD_API_KEY environment variable is not set") ∧
    (parse_pdf w p o f).2 = [Event.checkApiKey] := by
  rw [parse_pdf_key_missing w p o f h]
  exact ⟨rfl, rfl⟩

/-- Witness for the amended C5: with no credential, even otherwise absurd
arguments fail with the missing-credential ValueError. -/
theorem missing_credential_fails_first_witness :
    (parse_pdf { wAll with apiKeyEnv := none } "nofile.bin" (some "weird.xyz") "BOGUS").1 =
      Except.error (PyExc.valueError "LLAMA_CLOUD_API_KEY environment variable is not set") ∧
    (parse_pdf { wAll with apiKeyEnv := none } "nofile.bin" (some "weird.xyz") "BOGUS").2 =
      [Event.checkApiKey] :=
  missing_credential_fails_first { wAll with apiKeyEnv := none }
    "nofile.bin" (some "weird.xyz") "BOGUS" rfl

/-- C5 counterexample: the taxonomy's kinds are NOT distinct in the code.
At concrete inputs, the missing-credential failure (ConfigurationError of
the taxonomy), the bad-format failure (InvalidArgumentError) and the
empty-result failure (EmptyResultError) all escape as the same Python
exception type `ValueError`; they differ only in message.  Hence
"ConfigurationError is a different kind from InvalidArgumentError ... and
EmptyResultError" is false of the program. -/
theorem error_kinds_collapse_counterexample :
    (parse_pdf { wAll with apiKeyEnv := none } "a.pdf" none "markdown").1 =
      Except.error (PyExc.valueError "LLAMA_CLOUD_API_KEY environment variable is not set") ∧
    (parse_pdf wAll "a.pdf" none "xml").1 =
      Except.error (PyExc.valueError
        "Unsupported format: xml. Use \x27markdown\x27, \x27text\x27, or \x27json\x27") ∧
    (parse_pdf { wAll with externalCall := fun _ _ => Except.ok [] } "a.pdf" none "markdown").1 =
      Except.error (PyExc.valueError "No content was extracted from the PDF") ∧
    (PyExc.valueError "LLAMA_CLOUD_API_KEY environment variable is not set").kind =
      (PyExc.valueError
        "Unsupported format: xml. Use \x27markdown\x27, \x27text\x27, or \x27json\x27").kind ∧
    (PyExc.valueError "LLAMA_CLOUD_API_KEY environment variable is not set").kind =
      (PyExc.valueError "No content was extracted from the PDF").kind :=
  ⟨rfl, rfl, rfl, rfl, rfl⟩

/-- C6: with the credential present, a format whose lower-casing is not
one of "markdown", "text", "json" is rejected with the unsupported-format
`ValueError` right after the format check; the trace holds only the
credential and format check events, so nothing has touched the input or
output paths.  A format whose lower-casing is one of the three proceeds
past the format check to the extension check. -/
theorem unrecognized_format_rejected_case_insensitive (w : World) (p : String)
    (o : Option String) (f : String)
    (h1 : pyTruthy w.apiKeyEnv = true) :
    (pyLower f ∉ (["markdown", "text", "json"] : List String) →
      (parse_pdf w p o f).1 =
        Except.error (PyExc.valueError ("Unsupported format: " ++ pyLower f ++
          ". Use \x27markdown\x27, \x27text\x27, or \x27json\x27")) ∧
      (parse_pdf w p o f).2 = [Event.checkApiKey, Event.checkFormat]) ∧
    (pyLower f ∈ (["markdown", "text", "json"] : List String) →
      (parse_pdf w p o f).2.take 3 =
        [Event.checkApiKey, Event.checkFormat, Event.checkSuffix]) := by
  constructor
  · intro h2
    rw [parse_pdf_bad_format w p o f h1 h2]
    exact ⟨rfl, rfl⟩
  · intro h2
    by_cases h3 : pyLower (pySuffix (w.resolve p).name) = ".pdf"
    · by_cases h4 : w.fsExists (w.resolve p) = false
      · rw [parse_pdf_not_exists w p o f h1 h2 h3 h4]
        rfl
      · simp only [Bool.not_eq_false] at h4
        by_cases h5 : w.fsIsFile (w.resolve p) = false
        · rw [parse_pdf_not_file w p o f h1 h2 h3 h4 h5]
          rfl
        · simp only [Bool.not_eq_false] at h5
          by_cases h6 : w.fsReadable (w.resolve p) = false
          · rw [parse_pdf_not_readable w p o f h1 h2 h3 h4 h5 h6]
            rfl
          · simp only [Bool.not_eq_false] at h6
            cases hc : w.externalCall (w.resolve p) (pyLower f) with
            | error m =>
                rw [parse_pdf_external_error w p o f m h1 h2 h3 h4 h5 h6 hc]
                rfl
            | ok docs =>
                cases docs with
                | nil =>
                    rw [parse_pdf_empty_docs w p o f h1 h2 h3 h4 h5 h6 hc]
                    rfl
                | cons d ds =>
                    by_cases h8 : w.dirWritable
                        (outPathOf w (w.resolve p) o (extensions (pyLower f))).dir = false
                    · rw [parse_pdf_unwritable w p o f d ds h1 h2 h3 h4 h5 h6 hc h8]
                      rfl
                    · simp only [Bool.not_eq_false] at h8
                      rw [parse_pdf_success_eq w p o f d ds h1 h2 h3 h4 h5 h6 hc h8]
                      rfl
    · rw [parse_pdf_bad_suffix w p o f h1 h2 h3]
      rfl

/-- Witness for C6: "XML" is rejected before any filesystem or client
event; "tEXt" is accepted case-insensitively and reaches the extension
check. -/
theorem unrecognized_format_rejected_case_insensitive_witness :
    (parse_pdf wAll "a.pdf" none "XML").1 =
      Except.error (PyExc.valueError
        "Unsupported format: xml. Use \x27markdown\x27, \x27text\x27, or \x27json\x27") ∧
    (parse_pdf wAll "a.pdf" none "tEXt").2.take 3 =
      [Event.checkApiKey, Event.checkFormat, Event.checkSuffix] :=
  ⟨((unrecognized_format_rejected_case_insensitive wAll "a.pdf" none "XML" rfl).1
      (by decide)).1,
   (unrecognized_format_rejected_case_insensitive wAll "a.pdf" none "tEXt" rfl).2
      (by decide)⟩

/-- C3: when the external call returns an empty document list, `convert`
fails with the `ValueError` "No content was extracted from the PDF"
(raised before the output-path computation of lines 72-83 runs), the
trace ends at the client call plus its error log -- no directory is
created, no permission is probed, no file is written -- and replaying the
run over any initial file state leaves it unchanged. -/
theorem empty_result_fails_without_output (w : World) (p : String) (o : Option String)
    (f : String) (fs0 : String → Option String)
    (h1 : pyTruthy w.apiKeyEnv = true)
    (h2 : pyLower f ∈ (["markdown", "text", "json"] : List String))
    (h3 : pyLower (pySuffix (w.resolve p).name) = ".pdf")
    (h4 : w.fsExists (w.resolve p) = true)
    (h5 : w.fsIsFile (w.resolve p) = true)
    (h6 : w.fsReadable (w.resolve p) = true)
    (h7 : w.externalCall (w.resolve p) (pyLower f) = Except.ok []) :
    (parse_pdf w p o f).1 =
      Except.error (PyExc.valueError "No content was extracted from the PDF") ∧
    (parse_pdf w p o f).2 = sixChecks ++
      [Event.logInfo ("Processing PDF file: " ++ (w.resolve p).str),
       Event.constructClient (pyLower f), Event.callClient (w.resolve p),
       Event.logError "Failed to convert PDF: No content was extracted from the PDF"] ∧
    writesOf (parse_pdf w p o f).2 = [] ∧
    applyEvents fs0 (parse_pdf w p o f).2 = fs0 := by
  rw [parse_pdf_empty_docs w p o f h1 h2 h3 h4 h5 h6 h7]
  exact ⟨rfl, rfl, rfl, rfl⟩

/-- Witness for C3 in a concrete world whose external call returns `[]`:
the run fails with the empty-result error and no file state changes. -/
theorem empty_result_fails_without_output_witness :
    (parse_pdf { wAll with externalCall := fun _ _ => Except.ok [] } "a.pdf" none "json").1 =
      Except.error (PyExc.valueError "No content was extracted from the PDF") ∧
    (parse_pdf { wAll with externalCall := fun _ _ => Except.ok [] } "a.pdf" none "json").2 =
      sixChecks ++
        [Event.logInfo "Processing PDF file: /work/a.pdf",
         Event.constructClient "json", Event.callClient (FsPath.mk "/work" "a.pdf"),
         Event.logError "Failed to convert PDF: No content was extracted from the PDF"] ∧
    writesOf (parse_pdf { wAll with externalCall := fun _ _ => Except.ok [] }
        "a.pdf" none "json").2 = [] ∧
    applyEvents (fun _ => none)
      (parse_pdf { wAll with externalCall := fun _ _ => Except.ok [] } "a.pdf" none "json").2 =
      (fun _ => none) :=
  empty_result_fails_without_output { wAll with externalCall := fun _ _ => Except.ok [] }
    "a.pdf" none "json" (fun _ => none) rfl (by decide) (by decide) rfl rfl rfl rfl

/-- C1: on a run whose external call succeeds with documents `d :: ds`,
`convert` succeeds, performs exactly one write, at the computed output
path, whose full contents are exactly `d.text` (string equality: nothing
added, nothing trimmed); replaying the trace over ANY initial file state
-- in particular one that already has contents at the output path --
leaves `d.text` there, i.e. an existing file is overwritten without
warning; and the whole run (result and trace) is identical to the run in
which the service returns only `[d]`: the documents after the first are
silently discarded. -/
theorem convert_writes_first_document_text (w : World) (p : String) (o : Option String)
    (f : String) (d : Document) (ds : List Document) (fs0 : String → Option String)
    (h1 : pyTruthy w.apiKeyEnv = true)
    (h2 : pyLower f ∈ (["markdown", "text", "json"] : List String))
    (h3 : pyLower (pySuffix (w.resolve p).name) = ".pdf")
    (h4 : w.fsExists (w.resolve p) = true)
    (h5 : w.fsIsFile (w.resolve p) = true)
    (h6 : w.fsReadable (w.resolve p) = true)
    (h7 : w.externalCall (w.resolve p) (pyLower f) = Except.ok (d :: ds))
    (h8 : w.dirWritable (outPathOf w (w.resolve p) o (extensions (pyLower f))).dir = true) :
    (parse_pdf w p o f).1 = Except.ok () ∧
    writesOf (parse_pdf w p o f).2 =
      [(outPathOf w (w.resolve p) o (extensions (pyLower f)), d.text)] ∧
    applyEvents fs0 (parse_pdf w p o f).2
      (outPathOf w (w.resolve p) o (extensions (pyLower f))).str = some d.text ∧
    parse_pdf w p o f = parse_pdf { w with externalCall := fun _ _ => Except.ok [d] } p o f := by
  have e1 := parse_pdf_success_eq w p o f d ds h1 h2 h3 h4 h5 h6 h7 h8
  have e2 := parse_pdf_success_eq { w with externalCall := fun _ _ => Except.ok [d] }
    p o f d [] h1 h2 h3 h4 h5 h6 rfl h8
  refine ⟨?_, ?_, ?_, ?_⟩
  · rw [e1]
  · rw [e1]
    rfl
  · rw [e1]
    simp [applyEvents, sixChecks]
  · rw [e1, e2]
    rfl

/-- Witness for C1: service returns ["Hello", "World"]; the file gets
exactly "Hello", over a prior state that had other contents at the
output path, and "World" plays no role. -/
theorem convert_writes_first_document_text_witness :
    (parse_pdf wAll "a.pdf" none "markdown").1 = Except.ok () ∧
    writesOf (parse_pdf wAll "a.pdf" none "markdown").2 =
      [(FsPath.mk "/work" "a.md", "Hello")] ∧
    applyEvents (fun _ => some "old contents") (parse_pdf wAll "a.pdf" none "markdown").2
      "/work/a.md" = some "Hello" ∧
    parse_pdf wAll "a.pdf" none "markdown" =
      parse_pdf { wAll with externalCall := fun _ _ => Except.ok [Document.mk "Hello"] }
        "a.pdf" none "markdown" :=
  convert_writes_first_document_text wAll "a.pdf" none "markdown"
    (Document.mk "Hello") [Document.mk "World"] (fun _ => some "old contents")
    rfl (by decide) (by decide) rfl rfl rfl rfl rfl

/-- C4: with no explicit output path, the one write of a successful run
goes to the resolved input path with its suffix replaced by the extension
the format maps to, and that mapping is markdown to ".md", text to
".txt", json to ".json" (src/pdf2x.py lines 73-77, 83). -/
theorem default_output_path_maps_format_extension (w : World) (p : String) (f : String)
    (d : Document) (ds : List Document)
    (h1 : pyTruthy w.apiKeyEnv = true)
    (h2 : pyLower f ∈ (["markdown", "text", "json"] : List String))
    (h3 : pyLower (pySuffix (w.resolve p).name) = ".pdf")
    (h4 : w.fsExists (w.resolve p) = true)
    (h5 : w.fsIsFile (w.resolve p) = true)
    (h6 : w.fsReadable (w.resolve p) = true)
    (h7 : w.externalCall (w.resolve p) (pyLower f) = Except.ok (d :: ds))
    (h8 : w.dirWritable ((w.resolve p).withSuffix (extensions (pyLower f))).dir = true) :
    writesOf (parse_pdf w p none f).2 =
      [((w.resolve p).withSuffix (extensions (pyLower f)), d.text)] ∧
    extensions "markdown" = ".md" ∧ extensions "text" = ".txt" ∧
    extensions "json" = ".json" := by
  have e1 := parse_pdf_success_eq w p none f d ds h1 h2 h3 h4 h5 h6 h7 h8
  refine ⟨?_, rfl, rfl, rfl⟩
  rw [e1]
  rfl

/-- Witness for C4 with format "text": input "/work/a.pdf" is written to
"/work/a.txt". -/
theorem default_output_path_maps_format_extension_witness :
    writesOf (parse_pdf wAll "a.pdf" none "text").2 =
      [(FsPath.mk "/work" "a.txt", "Hello")] ∧
    extensions "markdown" = ".md" ∧ extensions "text" = ".txt" ∧
    extensions "json" = ".json" :=
  default_output_path_maps_format_extension wAll "a.pdf" "text"
    (Document.mk "Hello") [Document.mk "World"]
    rfl (by decide) (by decide) rfl rfl rfl rfl rfl

/-- C9: when a non-empty explicit output path is supplied, the one write
of a successful run goes to exactly that path after resolution, for every
accepted format: the conclusion does not involve the format-to-extension
mapping, and no extension check is applied to the explicit path. -/
theorem explicit_output_path_used_verbatim (w : World) (p s : String) (f : String)
    (d : Document) (ds : List Document)
    (hs : s ≠ "")
    (h1 : pyTruthy w.apiKeyEnv = true)
    (h2 : pyLower f ∈ (["markdown", "text", "json"] : List String))
    (h3 : pyLower (pySuffix (w.resolve p).name) = ".pdf")
    (h4 : w.fsExists (w.resolve p) = true)
    (h5 : w.fsIsFile (w.resolve p) = true)
    (h6 : w.fsReadable (w.resolve p) = true)
    (h7 : w.externalCall (w.resolve p) (pyLower f) = Except.ok (d :: ds))
    (h8 : w.dirWritable (w.resolve s).dir = true) :
    writesOf (parse_pdf w p (some s) f).2 = [(w.resolve s, d.text)] := by
  have hop : outPathOf w (w.resolve p) (some s) (extensions (pyLower f)) = w.resolve s := by
    simp [outPathOf, hs]
  have e1 := parse_pdf_success_eq w p (some s) f d ds h1 h2 h3 h4 h5 h6 h7 (by rw [hop]; exact h8)
  rw [e1, hop]
  rfl

/-- Witness for C9: format "json" writes to the explicit path "out.md"
as given, despite the mismatched extension. -/
theorem explicit_output_path_used_verbatim_witness :
    writesOf (parse_pdf wAll "a.pdf" (some "out.md") "json").2 =
      [(FsPath.mk "/work" "out.md", "Hello")] :=
  explicit_output_path_used_verbatim wAll "a.pdf" "out.md" "json"
    (Document.mk "Hello") [Document.mk "World"]
    (by decide) rfl (by decide) (by decide) rfl rfl rfl rfl rfl

/-- C10: when the run reaches output handling and the output directory is
not writable, the directory-creation step (`mkdir(parents=True,
exist_ok=True)`) has already run -- the trace shows `mkdirParents`
immediately before `checkWritePerm` -- and the run then fails with the
write-permission `PermissionError`; nothing is written and no event after
the failure removes anything (the event type has no removal operation, as
the scripts never delete), so directories created by that step remain. -/
theorem mkdir_precedes_write_permission_check (w : World) (p : String) (o : Option String)
    (f : String) (d : Document) (ds : List Document)
    (h1 : pyTruthy w.apiKeyEnv = true)
    (h2 : pyLower f ∈ (["markdown", "text", "json"] : List String))
    (h3 : pyLower (pySuffix (w.resolve p).name) = ".pdf")
    (h4 : w.fsExists (w.resolve p) = true)
    (h5 : w.fsIsFile (w.resolve p) = true)
    (h6 : w.fsReadable (w.resolve p) = true)
    (h7 : w.externalCall (w.resolve p) (pyLower f) = Except.ok (d :: ds))
    (h8 : w.dirWritable (outPathOf w (w.resolve p) o (extensions (pyLower f))).dir = false) :
    (parse_pdf w p o f).1 = Except.error (PyExc.permissionError
      ("No write permission for directory: " ++
        (outPathOf w (w.resolve p) o (extensions (pyLower f))).dir)) ∧
    (parse_pdf w p o f).2 = sixChecks ++
      [Event.logInfo ("Processing PDF file: " ++ (w.resolve p).str),
       Event.constructClient (pyLower f), Event.callClient (w.resolve p),
       Event.mkdirParents (outPathOf w (w.resolve p) o (extensions (pyLower f))).dir,
       Event.checkWritePerm (outPathOf w (w.resolve p) o (extensions (pyLower f))).dir,
       Event.logError ("Failed to convert PDF: No write permission for directory: " ++
         (outPathOf w (w.resolve p) o (extensions (pyLower f))).dir)] ∧
    writesOf (parse_pdf w p o f).2 = [] := by
  rw [parse_pdf_unwritable w p o f d ds h1 h2 h3 h4 h5 h6 h7 h8]
  exact ⟨rfl, rfl, rfl⟩

/-- Witness for C10 in a world whose directories are unwritable: the
mkdir event is in the trace right before the failed permission probe. -/
theorem mkdir_precedes_write_permission_check_witness :
    (parse_pdf { wAll with dirWritable := fun _ => false } "a.pdf" none "markdown").1 =
      Except.error (PyExc.permissionError "No write permission for directory: /work") ∧
    (parse_pdf { wAll with dirWritable := fun _ => false } "a.pdf" none "markdown").2 =
      sixChecks ++
        [Event.logInfo "Processing PDF file: /work/a.pdf",
         Event.constructClient "markdown", Event.callClient (FsPath.mk "/work" "a.pdf"),
         Event.mkdirParents "/work", Event.checkWritePerm "/work",
         Event.logError "Failed to convert PDF: No write permission for directory: /work"] ∧
    writesOf (parse_pdf { wAll with dirWritable := fun _ => false } "a.pdf" none "markdown").2 =
      [] :=
  mkdir_precedes_write_permission_check { wAll with dirWritable := fun _ => false }
    "a.pdf" none "markdown" (Document.mk "Hello") [Document.mk "World"]
    rfl (by decide) (by decide) rfl rfl rfl rfl rfl

/-- C7 counterexample: an argument error on the command line does NOT
exit with code 1.  Invoking src/pdf2x.py as `pdf2x.py doc.pdf --format
xml` makes `argparse` reject the `--format` choice inside
`parser.parse_args()`; `argparse` calls `sys.exit(2)`, raising
`SystemExit`, which `except Exception` does not catch, so the process
exits with status 2 -- not 1 -- and nothing is logged (empty trace). -/
theorem cli_bad_format_choice_exits_two :
    cliMainPdf2x wAll ["doc.pdf", "--format", "xml"] = (2, []) ∧ (2 : Nat) ≠ 1 :=
  ⟨rfl, by decide⟩

/-- C7 (amended): for both entry points, a command line the argument
parser accepts leads to exit status 0 when the conversion succeeds and
status 1 when it raises any exception, with the failure logged as
"Conversion failed: ..."; but a command line the argument parser rejects
terminates with argparse's own status 2, unlogged, bypassing the
`except Exception` handler. -/
theorem cli_exit_codes (w : World) (argv : List String) :
    (∀ a, parseArgsPdf2x argv = Except.ok a →
      ((parse_pdf w a.pdf_path a.output a.format).1 = Except.ok () →
        cliMainPdf2x w argv = (0, (parse_pdf w a.pdf_path a.output a.format).2)) ∧
      (∀ e, (parse_pdf w a.pdf_path a.output a.format).1 = Except.error e →
        cliMainPdf2x w argv = (1, (parse_pdf w a.pdf_path a.output a.format).2 ++
          [Event.logError ("Conversion failed: " ++ e.msg)]))) ∧
    (∀ u, parseArgsPdf2x argv = Except.error u → cliMainPdf2x w argv = (2, [])) ∧
    (∀ a, parseArgsMd argv = Except.ok a →
      ((parse_pdf_to_markdown w a.1 a.2).1 = Except.ok () →
        cliMainMd w argv = (0, (parse_pdf_to_markdown w a.1 a.2).2)) ∧
      (∀ e, (parse_pdf_to_markdown w a.1 a.2).1 = Except.error e →
        cliMainMd w argv = (1, (parse_pdf_to_markdown w a.1 a.2).2 ++
          [Event.logError ("Conversion failed: " ++ e.msg)]))) ∧
    (∀ u, parseArgsMd argv = Except.error u → cliMainMd w argv = (2, [])) := by
  refine ⟨?_, ?_, ?_, ?_⟩
  · intro a ha
    constructor
    · intro hok
      rcases hpr : parse_pdf w a.pdf_path a.output a.format with ⟨r, tr⟩
      rw [hpr] at hok
      simp only at hok
      subst hok
      simp [cliMainPdf2x, ha, hpr]
    · intro e he
      rcases hpr : parse_pdf w a.pdf_path a.output a.format with ⟨r, tr⟩
      rw [hpr] at he
      simp only at he
      subst he
      simp [cliMainPdf2x, ha, hpr]
  · intro u hu
    simp [cliMainPdf2x, hu]
  · intro a ha
    constructor
    · intro hok
      rcases hpr : parse_pdf_to_markdown w a.1 a.2 with ⟨r, tr⟩
      rw [hpr] at hok
      simp only at hok
      subst hok
      simp [cliMainMd, ha, hpr]
    · intro e he
      rcases hpr : parse_pdf_to_markdown w a.1 a.2 with ⟨r, tr⟩
      rw [hpr] at he
      simp only at he
      subst he
      simp [cliMainMd, ha, hpr]
  · intro u hu
    simp [cliMainMd, hu]

/-- Witness for the amended C7: a successful run exits 0; a rejected
command line exits 2 with nothing logged. -/
theorem cli_exit_codes_witness :
    cliMainPdf2x wAll ["a.pdf"] = (0, (parse_pdf wAll "a.pdf" none "markdown").2) ∧
    cliMainPdf2x wAll ["--nope"] = (2, []) :=
  ⟨((cli_exit_codes wAll ["a.pdf"]).1 (Pdf2xArgs.mk "a.pdf" none "markdown") rfl).1 rfl,
   (cli_exit_codes wAll ["--nope"]).2.1 () rfl⟩

/-- Events compared across the two scripts for C8: everything except the
log lines (whose success text differs: upper-cased format vs "Markdown")
and the format-validation check, which only the generic script has. -/
def coreEvent : Event → Bool
  | Event.logInfo _ => false
  | Event.logError _ => false
  | Event.checkFormat => false
  | _ => true

/-- C8: on every world and every argument pair, the markdown-only driver
`parse_pdf_to_markdown` returns exactly the same outcome (same success,
or same exception type and message) as the generic `parse_pdf` invoked
with format "markdown", and performs the same non-log events in the same
order -- same validation checks and outcomes, same client construction
and call, same output path computation (directory creation and
permission probe), and the same write with the same contents.  The only
differences are the extra (passing) format check of the generic script
and the wording of the success log line. -/
theorem markdown_script_equiv_generic_markdown (w : World) (p : String)
    (o : Option String) :
    (parse_pdf_to_markdown w p o).1 = (parse_pdf w p o "markdown").1 ∧
    (parse_pdf_to_markdown w p o).2.filter coreEvent =
      (parse_pdf w p o "markdown").2.filter coreEvent := by
  have h2 : pyLower "markdown" ∈ (["markdown", "text", "json"] : List String) := by decide
  have hm : pyLower "markdown" = "markdown" := rfl
  have hext : extensions "markdown" = ".md" := rfl
  by_cases h1 : pyTruthy w.apiKeyEnv = false
  · rw [parse_pdf_key_missing w p o "markdown" h1]
    simp [parse_pdf_to_markdown, h1, coreEvent]
  · simp only [Bool.not_eq_false] at h1
    by_cases h3 : pyLower (pySuffix (w.resolve p).name) = ".pdf"
    · by_cases h4 : w.fsExists (w.resolve p) = false
      · rw [parse_pdf_not_exists w p o "markdown" h1 h2 h3 h4]
        simp [parse_pdf_to_markdown, h1, h3, h4, coreEvent]
      · simp only [Bool.not_eq_false] at h4
        by_cases h5 : w.fsIsFile (w.resolve p) = false
        · rw [parse_pdf_not_file w p o "markdown" h1 h2 h3 h4 h5]
          simp [parse_pdf_to_markdown, h1, h3, h4, h5, coreEvent]
        · simp only [Bool.not_eq_false] at h5
          by_cases h6 : w.fsReadable (w.resolve p) = false
          · rw [parse_pdf_not_readable w p o "markdown" h1 h2 h3 h4 h5 h6]
            simp [parse_pdf_to_markdown, h1, h3, h4, h5, h6, coreEvent, sixChecks]
          · simp only [Bool.not_eq_false] at h6
            cases hc : w.externalCall (w.resolve p) "markdown" with
            | error m =>
                rw [parse_pdf_external_error w p o "markdown" m h1 h2 h3 h4 h5 h6 hc]
                simp [parse_pdf_to_markdown, h1, h3, h4, h5, h6, hc, coreEvent, sixChecks,
                  hm, hext]
            | ok docs =>
                cases docs with
                | nil =>
                    rw [parse_pdf_empty_docs w p o "markdown" h1 h2 h3 h4 h5 h6 hc]
                    simp [parse_pdf_to_markdown, h1, h3, h4, h5, h6, hc, coreEvent, sixChecks,
                  hm, hext]
                | cons d ds =>
                    by_cases h8 : w.dirWritable
                        (outPathOf w (w.resolve p) o ".md").dir = false
                    · rw [parse_pdf_unwritable w p o "markdown" d ds h1 h2 h3 h4 h5 h6 hc h8]
                      simp [parse_pdf_to_markdown, h1, h3, h4, h5, h6, hc, h8, coreEvent,
                        sixChecks, hm, hext]
                    · simp only [Bool.not_eq_false] at h8
                      rw [parse_pdf_success_eq w p o "markdown" d ds h1 h2 h3 h4 h5 h6 hc h8]
                      simp [parse_pdf_to_markdown, h1, h3, h4, h5, h6, hc, h8, coreEvent,
                        sixChecks, hm, hext]
    · rw [parse_pdf_bad_suffix w p o "markdown" h1 h2 h3]
      simp [parse_pdf_to_markdown, h1, h3, coreEvent]

end Pdf2x
